import Mathlib

/-!
Verification of the crisis-bot repository: the configuration-driven VAMP
compliance evaluation engine (regional dispute-ratio thresholds, PSP shadow
risk bands, country exemptions, currency-denominated penalty bands) together
with the two concrete bot-layer functions `parsePayload` and the exported
webhook handler.

Threshold, band, exemption and rate data are taken from the repository
configuration sources (`src/config/complianceThresholds.ts` and the
configuration usage guide).  The evaluator, configuration store and their
error handling are not shipped under `src/`; those operations are modelled
from the specification, as marked on each definition.

All ratios and amounts are rationals (`ℚ`), built with `mkRat` so that every
definition evaluates by kernel reduction.  JS strings handled by
`parsePayload` are modelled as `List Char` with an executable splitter that
mirrors `String.prototype.split` on a one-character separator.
-/

namespace CrisisBot

/-- Region enumeration US/EU/CEMEA/LAC/AP, from the configuration guide
(regional thresholds section of `thresholds.json`). -/
inductive Region
  | US
  | EU
  | CEMEA
  | LAC
  | AP
deriving DecidableEq

/-- Dispute-ratio metric kinds named by the sources: the Visa Acquirer
Monitoring Program metric and the Brazilian PIX MED metric. -/
inductive Metric
  | VAMP
  | PIX_MED
deriving DecidableEq

/-- Risk tier of a classification result. -/
inductive Tier
  | green
  | watch
  | red
  | critical
deriving DecidableEq

/-- Scope of a country exemption. -/
inductive ExemptionScope
  | domesticOnly
  | crossBorderIncluded
deriving DecidableEq

/-- Pipeline stages recorded in the audit trail. -/
inductive RuleKind
  | exemptionCheck
  | regimeResolution
  | tierClassification
  | pspBandLookup
  | penaltyEstimation
deriving DecidableEq

/-- Modelled from the spec: one regional threshold row per (region, metric).
`current_threshold` is the warning boundary now in force (the source `vamp`
config calls it `warn_cb_rate`), `future_threshold` the next boundary
(`breach_cb_rate` in the source, also the forthcoming regime after
`effective_date` under the 3-month rule). -/
structure RegionThreshold where
  region : Region
  metric : Metric
  current_threshold : ℚ
  future_threshold : ℚ
  effective_date : ℕ
deriving DecidableEq

/-- A PSP shadow risk band: lower bound (as a fraction) and display label. -/
structure PSPShadowBand where
  lower_bound : ℚ
  label : String
deriving DecidableEq

/-- Modelled from the spec: a country exemption row
(`exemptions.json` country_exemptions).  Dates are abstract day numbers. -/
structure CountryExemption where
  country_code : String
  scope : ExemptionScope
  valid_from : ℕ
  valid_until : Option ℕ
deriving DecidableEq

/-- Modelled from the spec: a currency conversion rate; `rate_to_usd` is the
multiplier applied to a canonical USD amount to obtain the local amount. -/
structure CurrencyRate where
  currency_code : String
  rate_to_usd : ℚ
deriving DecidableEq

/-- The four rule tables plus the illustrative USD fine bands. -/
structure Tables where
  regionThresholds : List RegionThreshold
  pspBands : List PSPShadowBand
  exemptions : List CountryExemption
  rates : List CurrencyRate
  fine_bands_usd : List ℚ
deriving DecidableEq

/-- A validated, published configuration store (same shape as `Tables`;
`load` is the validating constructor). -/
abbrev Store := Tables

/-- Configuration-level failure (malformed or inconsistent tables). -/
inductive ConfigError
  | invalidTables
deriving DecidableEq

/-- Per-request evaluation failure: no threshold mapping for the requested
region and metric. -/
inductive EvalError
  | unknownRegion
deriving DecidableEq

/-- Currency conversion failure: no rate for the requested currency. -/
inductive CurrencyError
  | missingRate
deriving DecidableEq

/-- Evaluator input: one merchant metrics snapshot.  `dispute_rate` embeds
the snapshot field `dispute_ratio` (a fraction, e.g. 0.0065). -/
structure Snapshot where
  region : Region
  country_code : String
  metric_kind : Metric
  dispute_rate : ℚ
  is_domestic_mix : Bool
  as_of_date : ℕ
  currency_code : String
deriving DecidableEq

/-- One audit trail entry: which rule was consulted and with what outcome. -/
structure AuditEntry where
  rule_id : String
  rule_kind : RuleKind
  outcome : String
deriving DecidableEq

/-- A currency-denominated penalty estimate. -/
structure PenaltyEstimate where
  amount : ℚ
  currency_code : String
deriving DecidableEq

/-- Evaluator output. -/
structure ClassificationResult where
  tier : Tier
  exemption_applied : Bool
  exemption_reason : Option String
  psp_risk_label : Option String
  penalty_estimate : Option PenaltyEstimate
  audit_trail : List AuditEntry
deriving DecidableEq

/-- Strictly increasing chain test on a list of rationals. -/
def chainLt : List ℚ → Bool
  | [] => true
  | [_] => true
  | a :: b :: rest => decide (a < b) && chainLt (b :: rest)

/-- Modelled from the spec: the load-time validation of a table set.
Rejects a region row whose `future_threshold` is not strictly above
`current_threshold`, PSP bands whose bounds are not strictly increasing, a
non-positive currency rate, and an exemption whose `valid_until` precedes
`valid_from`. -/
def validTables (t : Tables) : Bool :=
  t.regionThresholds.all (fun rt => decide (rt.current_threshold < rt.future_threshold)) &&
  chainLt (t.pspBands.map (fun b => b.lower_bound)) &&
  t.rates.all (fun cr => decide (0 < cr.rate_to_usd)) &&
  t.exemptions.all (fun e =>
    match e.valid_until with
    | some u => decide (e.valid_from ≤ u)
    | none => true)

/-- Modelled from the spec: `load(sourceData)` validates a table set and
publishes it as a store, or fails with a `ConfigError`.  The repository
itself fetches the JSON tables with no validation; the validating load is
the operation the spec prescribes. -/
def load (t : Tables) : Except ConfigError Store :=
  if validTables t then Except.ok t else Except.error ConfigError.invalidTables

/-- Modelled from the spec: `reloadConfiguration(newTables)` validates
before publishing; on failure the previously published store stays active.
Returns the store that is active after the call, with the call outcome. -/
def reloadConfiguration (published : Store) (t : Tables) :
    Store × Except ConfigError Unit :=
  match load t with
  | Except.ok st => (st, Except.ok ())
  | Except.error e => (published, Except.error e)

/-- Modelled from the spec: `lookupPSPBand(ratio)` scans the ordered band
list and keeps the last band whose lower bound is at or below the observed
ratio (for strictly increasing bounds this is the highest qualifying band);
returns none when no band qualifies. -/
def lookupPSPBand : List PSPShadowBand → ℚ → Option PSPShadowBand
  | [], _ => none
  | b :: rest, x =>
    if b.lower_bound ≤ x then
      match lookupPSPBand rest x with
      | some b2 => some b2
      | none => some b
    else lookupPSPBand rest x

/-- An exemption is active at day `d` when `d` is inside its validity
window; a missing `valid_until` is open-ended. -/
def activeAt (e : CountryExemption) (d : ℕ) : Bool :=
  decide (e.valid_from ≤ d) &&
    (match e.valid_until with
     | some u => decide (d ≤ u)
     | none => true)

/-- Modelled from the spec: `lookupExemption(countryCode, asOfDate)` returns
the exemption active at the date for the country, else none. -/
def lookupExemption (es : List CountryExemption) (c : String) (d : ℕ) :
    Option CountryExemption :=
  es.find? (fun e => decide (e.country_code = c) && activeAt e d)

/-- Whether, per its scope, the exemption covers the transaction mix of the
snapshot: a domestic-only exemption needs a domestic mix. -/
def qualifies (e : CountryExemption) (s : Snapshot) : Bool :=
  match e.scope with
  | ExemptionScope.domesticOnly => s.is_domestic_mix
  | ExemptionScope.crossBorderIncluded => true

/-- The exemption the store holds for the snapshot country and date. -/
def exemptionFor (st : Store) (s : Snapshot) : Option CountryExemption :=
  lookupExemption st.exemptions s.country_code s.as_of_date

/-- Whether step 1 of the pipeline short-circuits for this snapshot. -/
def shortCircuits (st : Store) (s : Snapshot) : Bool :=
  match exemptionFor st s with
  | some e => qualifies e s
  | none => false

/-- Modelled from the spec: resolve the `RegionThreshold` row keyed by
(region, metric); the current/future regime choice by date happens in
`applicableWarn`.  The sources keep at most one row per key. -/
def lookupRegionThreshold (st : Store) (reg : Region) (m : Metric) :
    Option RegionThreshold :=
  st.regionThresholds.find? (fun rt => decide (rt.region = reg) && decide (rt.metric = m))

/-- The warning boundary in force at day `d`: the future regime applies from
its `effective_date` on, the current regime before. -/
def applicableWarn (rt : RegionThreshold) (d : ℕ) : ℚ :=
  if rt.effective_date ≤ d then rt.future_threshold else rt.current_threshold

/-- Whether the ratio is at or above the highest PSP shadow band. -/
def escalates (bands : List PSPShadowBand) (x : ℚ) : Bool :=
  match bands.getLast? with
  | some b => decide (b.lower_bound ≤ x)
  | none => false

/-- Modelled from the spec: regulatory tier from the applicable thresholds,
with inclusive floors: below the warning boundary is green, from the warning
boundary up to (excluding) the next boundary is watch, at or above the next
boundary is red. -/
def regulatoryTier (rt : RegionThreshold) (d : ℕ) (x : ℚ) : Tier :=
  if x < applicableWarn rt d then Tier.green
  else if x < rt.future_threshold then Tier.watch
  else Tier.red

/-- Modelled from the spec: final tier; a ratio at or above the highest PSP
shadow band escalates to critical regardless of the regulatory tier. -/
def classifyTier (bands : List PSPShadowBand) (rt : RegionThreshold) (d : ℕ) (x : ℚ) : Tier :=
  if escalates bands x then Tier.critical else regulatoryTier rt d x

/-- Rational product computed through `mkRat` on the reduced components, so
that it evaluates by kernel reduction; `qmul_eq_mul` below proves it is
exactly multiplication. -/
def qmul (a b : ℚ) : ℚ :=
  mkRat (a.num * b.num) (a.den * b.den)

/-- Modelled from the spec: `convert(amountUsd, targetCurrency)` multiplies
by the stored rate, or fails with `CurrencyError` when the currency is
absent from the rate table (never substituting a default rate). -/
def convert (rates : List CurrencyRate) (amountUsd : ℚ) (target : String) :
    Except CurrencyError ℚ :=
  match rates.find? (fun cr => decide (cr.currency_code = target)) with
  | some cr => Except.ok (qmul amountUsd cr.rate_to_usd)
  | none => Except.error CurrencyError.missingRate

/-- The lowest of the illustrative USD fine bands, if any. -/
def lowestFine : List ℚ → Option ℚ
  | [] => none
  | x :: xs => some (xs.foldl (fun a b => if b < a then b else a) x)

/-- Modelled from the spec: penalty estimation policy — take the lowest USD
fine band and convert it to the snapshot currency; an absent rate degrades
the estimate to none instead of failing the evaluation. -/
def penaltyFor (st : Store) (target : String) : Option PenaltyEstimate :=
  match lowestFine st.fine_bands_usd with
  | none => none
  | some base =>
    match convert st.rates base target with
    | Except.ok amt => some { amount := amt, currency_code := target }
    | Except.error _ => none

/-- Modelled from the spec: the result of the exemption short-circuit — tier
is the green equivalent, the PSP band is still computed for informational
display, the remaining threshold math is skipped. -/
def exemptResult (st : Store) (s : Snapshot) (e : CountryExemption) : ClassificationResult :=
  { tier := Tier.green
    exemption_applied := true
    exemption_reason := some e.country_code
    psp_risk_label := (lookupPSPBand st.pspBands s.dispute_rate).map (fun b => b.label)
    penalty_estimate := none
    audit_trail := [{ rule_id := "exemption", rule_kind := RuleKind.exemptionCheck, outcome := "applied" },
                    { rule_id := "psp_bands", rule_kind := RuleKind.pspBandLookup, outcome := "informational" }] }

/-- Modelled from the spec: the result of the regulatory pipeline for a
resolved region row: tier classification (with PSP escalation), PSP band
attachment and penalty estimation, one audit entry per stage. -/
def regulatoryResult (st : Store) (s : Snapshot) (exOutcome : String) (rt : RegionThreshold) :
    ClassificationResult :=
  let pen := penaltyFor st s.currency_code
  { tier := classifyTier st.pspBands rt s.as_of_date s.dispute_rate
    exemption_applied := false
    exemption_reason := none
    psp_risk_label := (lookupPSPBand st.pspBands s.dispute_rate).map (fun b => b.label)
    penalty_estimate := pen
    audit_trail := [{ rule_id := "exemption", rule_kind := RuleKind.exemptionCheck, outcome := exOutcome },
                    { rule_id := "region_threshold", rule_kind := RuleKind.regimeResolution, outcome := "resolved" },
                    { rule_id := "tier", rule_kind := RuleKind.tierClassification, outcome := "classified" },
                    { rule_id := "psp_bands", rule_kind := RuleKind.pspBandLookup, outcome := "checked" },
                    { rule_id := "penalty", rule_kind := RuleKind.penaltyEstimation,
                      outcome := if pen.isSome then "converted" else "unavailable" }] }

/-- Modelled from the spec: steps 2 to 6 of the evaluation pipeline — regime
resolution failing with `UnknownRegionError` as a reported result when no
row matches, otherwise the regulatory classification. -/
def evalRegulatory (st : Store) (s : Snapshot) (exOutcome : String) :
    Except EvalError ClassificationResult :=
  match lookupRegionThreshold st s.region s.metric_kind with
  | none => Except.error EvalError.unknownRegion
  | some rt => Except.ok (regulatoryResult st s exOutcome rt)

/-- Modelled from the spec: `evaluate(snapshot)` — exemption check first
(short-circuit when an active exemption covers the mix), then the regulatory
pipeline. -/
def evaluate (st : Store) (s : Snapshot) : Except EvalError ClassificationResult :=
  match exemptionFor st s with
  | some e =>
    if qualifies e s then Except.ok (exemptResult st s e)
    else evalRegulatory st s "present_not_qualifying"
  | none => evalRegulatory st s "none"

/-- The pipeline stages executed for a snapshot, in evaluation order. -/
def executedStages (st : Store) (s : Snapshot) : List RuleKind :=
  if shortCircuits st s then
    [RuleKind.exemptionCheck, RuleKind.pspBandLookup]
  else
    [RuleKind.exemptionCheck, RuleKind.regimeResolution, RuleKind.tierClassification,
     RuleKind.pspBandLookup, RuleKind.penaltyEstimation]

/- Source configuration data. -/

/-- VAMP warning threshold 0.65 percent, `warn_cb_rate` in
`src/config/complianceThresholds.ts`. -/
def vampWarnCbRate : ℚ := mkRat 65 10000

/-- VAMP monitoring/breach threshold 1.00 percent, `breach_cb_rate` in
`src/config/complianceThresholds.ts`. -/
def vampBreachCbRate : ℚ := mkRat 1 100

/-- Illustrative USD fine bands from `src/config/complianceThresholds.ts`. -/
def vampFineBandsUsd : List ℚ := [mkRat 5000 1, mkRat 25000 1, mkRat 50000 1]

/-- PIX tier boundaries from `src/config/complianceThresholds.ts`. -/
def pixGreenMax : ℚ := mkRat 3 1000

/-- PIX watch tier minimum from `src/config/complianceThresholds.ts`. -/
def pixWatchMin : ℚ := mkRat 45 10000

/-- PIX red tier minimum from `src/config/complianceThresholds.ts`. -/
def pixRedMin : ℚ := mkRat 55 10000

/-- The four PSP shadow bands 0.3, 0.5, 0.7 and 0.9 percent listed by the
configuration guide.  Labels: 0.3 and 0.9 percent as worded by the spec,
0.7 percent from the compliance-alert text of the guide; no source names a
label for the 0.5 percent band, so it carries a placeholder label. -/
def pspShadowBands : List PSPShadowBand :=
  [{ lower_bound := mkRat 3 1000, label := "reserves likely" },
   { lower_bound := mkRat 5 1000, label := "elevated monitoring" },
   { lower_bound := mkRat 7 1000, label := "reserves and rate increases likely" },
   { lower_bound := mkRat 9 1000, label := "termination likely" }]

/-- Modelled from the spec: the Brazil/Chile/India domestic-transaction
exemptions named by the configuration guide, open-ended from day 0. -/
def demoExemptions : List CountryExemption :=
  [{ country_code := "BR", scope := ExemptionScope.domesticOnly, valid_from := 0, valid_until := none },
   { country_code := "CL", scope := ExemptionScope.domesticOnly, valid_from := 0, valid_until := none },
   { country_code := "IN", scope := ExemptionScope.domesticOnly, valid_from := 0, valid_until := none }]

/-- Approximate rates from the configuration guide (8 USD maps to 7.30 EUR
and 44 BRL), expressed as multipliers per USD. -/
def demoRates : List CurrencyRate :=
  [{ currency_code := "USD", rate_to_usd := mkRat 1 1 },
   { currency_code := "EUR", rate_to_usd := mkRat 73 80 },
   { currency_code := "BRL", rate_to_usd := mkRat 11 2 }]

/-- One VAMP threshold row per region with the source thresholds; the
forthcoming regime would take effect at day 1000. -/
def demoRegionThresholds : List RegionThreshold :=
  [{ region := Region.US, metric := Metric.VAMP, current_threshold := vampWarnCbRate,
     future_threshold := vampBreachCbRate, effective_date := 1000 },
   { region := Region.EU, metric := Metric.VAMP, current_threshold := vampWarnCbRate,
     future_threshold := vampBreachCbRate, effective_date := 1000 },
   { region := Region.CEMEA, metric := Metric.VAMP, current_threshold := vampWarnCbRate,
     future_threshold := vampBreachCbRate, effective_date := 1000 },
   { region := Region.LAC, metric := Metric.VAMP, current_threshold := vampWarnCbRate,
     future_threshold := vampBreachCbRate, effective_date := 1000 },
   { region := Region.AP, metric := Metric.VAMP, current_threshold := vampWarnCbRate,
     future_threshold := vampBreachCbRate, effective_date := 1000 }]

/-- The table set assembled from the source configuration data. -/
def demoTables : Tables :=
  { regionThresholds := demoRegionThresholds
    pspBands := pspShadowBands
    exemptions := demoExemptions
    rates := demoRates
    fine_bands_usd := vampFineBandsUsd }

/-- The published store used by the concrete scenarios. -/
def demoStore : Store := demoTables

/- Bot layer: `parsePayload` from `src/index.js`.  JS strings are modelled
as character lists so that splitting and trimming stay executable. -/

/-- A JS string, as its character sequence. -/
abbrev JsStr := List Char

/-- `String.prototype.split` with a one-character separator: splitting the
empty string gives one empty piece, and each separator occurrence starts a
new piece. -/
def jsSplit (sep : Char) : JsStr → List JsStr
  | [] => [[]]
  | c :: cs =>
    if c = sep then [] :: jsSplit sep cs
    else
      match jsSplit sep cs with
      | h :: t => (c :: h) :: t
      | [] => [[c]]

/-- `String.prototype.trim`: drop leading and trailing whitespace. -/
def jsTrim (s : JsStr) : JsStr :=
  ((s.dropWhile Char.isWhitespace).reverse.dropWhile Char.isWhitespace).reverse

/-- One loop iteration of `parsePayload` (`src/index.js` lines 46 to 51):
destructure the part on the first two `:`-pieces; when both are non-empty
(JS truthiness) store the trimmed value under the trimmed key, overwriting
any earlier entry. -/
def applyPart (out : JsStr → Option JsStr) (part : JsStr) : JsStr → Option JsStr :=
  match jsSplit ':' part with
  | key :: value :: _ =>
    if key ≠ [] ∧ value ≠ [] then
      fun q => if q = jsTrim key then some (jsTrim value) else out q
    else out
  | _ => out

/-- `parsePayload` from `src/index.js`: falsy input (undefined, null or the
empty string) gives the empty map; otherwise fold the `;`-separated parts
into the map. -/
def parsePayload (input : Option JsStr) : JsStr → Option JsStr :=
  match input with
  | none => fun _ => none
  | some s =>
    if s = [] then fun _ => none
    else (jsSplit ';' s).foldl applyPart (fun _ => none)

/-- The entry one part contributes, as the claim words it: an entry exactly
when splitting the part on `:` yields a non-empty first piece and a
non-empty second piece, both stored trimmed; pieces after the second are
discarded. -/
def entrySpec (part : JsStr) : Option (JsStr × JsStr) :=
  match jsSplit ':' part with
  | key :: value :: _ =>
    if key ≠ [] ∧ value ≠ [] then some (jsTrim key, jsTrim value) else none
  | _ => none

/- Bot layer: the exported webhook handler of `src/index.js`. -/

/-- Response bodies the handler can send: `{ ok: true }`, the readiness
message (with its timestamp abstracted), and the error body. -/
inductive HttpBody
  | okTrue
  | readiness
  | errorBody
deriving DecidableEq

/-- An HTTP response as status code and body. -/
structure HttpResponse where
  status : ℕ
  body : HttpBody
deriving DecidableEq

/-- Outcome of `bot.handleUpdate(req.body)`: it either completes or throws. -/
inductive UpdateOutcome
  | handled
  | threw
deriving DecidableEq

/-- The try block of the exported handler (`src/index.js` lines 484 to 490):
the responses it sends and the exception, if any, escaping it. -/
def webhookTry (method : String) (u : UpdateOutcome) :
    List HttpResponse × Option String :=
  if method = "POST" then
    match u with
    | UpdateOutcome.handled => ([{ status := 200, body := HttpBody.okTrue }], none)
    | UpdateOutcome.threw => ([], some "Bot error")
  else ([{ status := 200, body := HttpBody.readiness }], none)

/-- The exported webhook handler: the try block wrapped in the catch that
answers 500 with an error body; the second component is the exception
propagated to the caller, if any. -/
def webhookHandler (method : String) (u : UpdateOutcome) :
    List HttpResponse × Option String :=
  match webhookTry method u with
  | (sent, some _) => (sent ++ [{ status := 500, body := HttpBody.errorBody }], none)
  | (sent, none) => (sent, none)

/- Concrete scenario inputs and their computed results. -/

/-- The US/VAMP row of the demo store. -/
def usVampRow : RegionThreshold :=
  { region := Region.US, metric := Metric.VAMP, current_threshold := vampWarnCbRate,
    future_threshold := vampBreachCbRate, effective_date := 1000 }

/-- Scenario of C1: region US, metric VAMP, dispute ratio exactly 0.0065,
no exemption. -/
def c1Snap : Snapshot :=
  { region := Region.US, country_code := "US", metric_kind := Metric.VAMP,
    dispute_rate := mkRat 65 10000, is_domestic_mix := false,
    as_of_date := 100, currency_code := "USD" }

/-- The result `evaluate` produces on `c1Snap`. -/
def c1Expected : ClassificationResult :=
  { tier := Tier.watch
    exemption_applied := false
    exemption_reason := none
    psp_risk_label := some "elevated monitoring"
    penalty_estimate := some { amount := mkRat 5000 1, currency_code := "USD" }
    audit_trail := [{ rule_id := "exemption", rule_kind := RuleKind.exemptionCheck, outcome := "none" },
                    { rule_id := "region_threshold", rule_kind := RuleKind.regimeResolution, outcome := "resolved" },
                    { rule_id := "tier", rule_kind := RuleKind.tierClassification, outcome := "classified" },
                    { rule_id := "psp_bands", rule_kind := RuleKind.pspBandLookup, outcome := "checked" },
                    { rule_id := "penalty", rule_kind := RuleKind.penaltyEstimation, outcome := "converted" }] }

/-- Scenario refuting C3 as stated: dispute ratio 0.009 but the snapshot
country has an active domestic exemption and a domestic mix. -/
def c3ExemptSnap : Snapshot :=
  { region := Region.US, country_code := "BR", metric_kind := Metric.VAMP,
    dispute_rate := mkRat 9 1000, is_domestic_mix := true,
    as_of_date := 100, currency_code := "BRL" }

/-- The result `evaluate` produces on `c3ExemptSnap`. -/
def c3ExemptExpected : ClassificationResult :=
  { tier := Tier.green
    exemption_applied := true
    exemption_reason := some "BR"
    psp_risk_label := some "termination likely"
    penalty_estimate := none
    audit_trail := [{ rule_id := "exemption", rule_kind := RuleKind.exemptionCheck, outcome := "applied" },
                    { rule_id := "psp_bands", rule_kind := RuleKind.pspBandLookup, outcome := "informational" }] }

/-- Non-exempt scenario at dispute ratio 0.009 for the amended C3. -/
def c3WitnessSnap : Snapshot :=
  { region := Region.EU, country_code := "US", metric_kind := Metric.VAMP,
    dispute_rate := mkRat 9 1000, is_domestic_mix := false,
    as_of_date := 100, currency_code := "EUR" }

/-- The result `evaluate` produces on `c3WitnessSnap` (EUR penalty:
5000 USD times 73/80 is 9125/2 EUR). -/
def c3WitnessExpected : ClassificationResult :=
  { tier := Tier.critical
    exemption_applied := false
    exemption_reason := none
    psp_risk_label := some "termination likely"
    penalty_estimate := some { amount := mkRat 9125 2, currency_code := "EUR" }
    audit_trail := [{ rule_id := "exemption", rule_kind := RuleKind.exemptionCheck, outcome := "none" },
                    { rule_id := "region_threshold", rule_kind := RuleKind.regimeResolution, outcome := "resolved" },
                    { rule_id := "tier", rule_kind := RuleKind.tierClassification, outcome := "classified" },
                    { rule_id := "psp_bands", rule_kind := RuleKind.pspBandLookup, outcome := "checked" },
                    { rule_id := "penalty", rule_kind := RuleKind.penaltyEstimation, outcome := "converted" }] }

/-- Store refuting C5 as stated: the exemptions are present but the region
threshold table is empty, so every (region, metric) lookup misses. -/
def c5Store : Store :=
  { regionThresholds := []
    pspBands := pspShadowBands
    exemptions := demoExemptions
    rates := demoRates
    fine_bands_usd := vampFineBandsUsd }

/-- Exempt snapshot evaluated against `c5Store`. -/
def c5ExemptSnap : Snapshot :=
  { region := Region.US, country_code := "BR", metric_kind := Metric.VAMP,
    dispute_rate := mkRat 2 100, is_domestic_mix := true,
    as_of_date := 100, currency_code := "BRL" }

/-- Snapshot whose (region, metric) pair has no row in the demo store and
whose country has no exemption. -/
def c5WitnessSnap : Snapshot :=
  { region := Region.US, country_code := "US", metric_kind := Metric.PIX_MED,
    dispute_rate := mkRat 1 1000, is_domestic_mix := false,
    as_of_date := 100, currency_code := "USD" }

/-- Snapshot whose currency has no rate in the demo store. -/
def c6Snap : Snapshot :=
  { region := Region.US, country_code := "US", metric_kind := Metric.VAMP,
    dispute_rate := mkRat 2 1000, is_domestic_mix := false,
    as_of_date := 100, currency_code := "JPY" }

/-- The result `evaluate` produces on `c6Snap`: the tier is reported
normally, the penalty estimate is unavailable. -/
def c6Expected : ClassificationResult :=
  { tier := Tier.green
    exemption_applied := false
    exemption_reason := none
    psp_risk_label := none
    penalty_estimate := none
    audit_trail := [{ rule_id := "exemption", rule_kind := RuleKind.exemptionCheck, outcome := "none" },
                    { rule_id := "region_threshold", rule_kind := RuleKind.regimeResolution, outcome := "resolved" },
                    { rule_id := "tier", rule_kind := RuleKind.tierClassification, outcome := "classified" },
                    { rule_id := "psp_bands", rule_kind := RuleKind.pspBandLookup, outcome := "checked" },
                    { rule_id := "penalty", rule_kind := RuleKind.penaltyEstimation, outcome := "unavailable" }] }

/-- A table set violating the monotonic-tightening invariant: the future
threshold 0.0065 is at or below the current threshold 0.01. -/
def badTables : Tables :=
  { regionThresholds := [{ region := Region.US, metric := Metric.VAMP,
                           current_threshold := mkRat 1 100,
                           future_threshold := mkRat 65 10000, effective_date := 0 }]
    pspBands := pspShadowBands
    exemptions := []
    rates := []
    fine_bands_usd := [] }

/-- Exempt snapshot used to exercise the short-circuit audit trail. -/
def c8Snap : Snapshot :=
  { region := Region.LAC, country_code := "BR", metric_kind := Metric.VAMP,
    dispute_rate := mkRat 2 100, is_domestic_mix := true,
    as_of_date := 100, currency_code := "BRL" }

/-- The result `evaluate` produces on `c8Snap`. -/
def c8Expected : ClassificationResult :=
  { tier := Tier.green
    exemption_applied := true
    exemption_reason := some "BR"
    psp_risk_label := some "termination likely"
    penalty_estimate := none
    audit_trail := [{ rule_id := "exemption", rule_kind := RuleKind.exemptionCheck, outcome := "applied" },
                    { rule_id := "psp_bands", rule_kind := RuleKind.pspBandLookup, outcome := "informational" }] }

/-- Exempt snapshot for the C4 witness: Chile, domestic mix, ratio far above
every threshold. -/
def c4Snap : Snapshot :=
  { region := Region.LAC, country_code := "CL", metric_kind := Metric.VAMP,
    dispute_rate := mkRat 5 100, is_domestic_mix := true,
    as_of_date := 200, currency_code := "USD" }

/-- The result `evaluate` produces on `c4Snap`. -/
def c4Expected : ClassificationResult :=
  { tier := Tier.green
    exemption_applied := true
    exemption_reason := some "CL"
    psp_risk_label := some "termination likely"
    penalty_estimate := none
    audit_trail := [{ rule_id := "exemption", rule_kind := RuleKind.exemptionCheck, outcome := "applied" },
                    { rule_id := "psp_bands", rule_kind := RuleKind.pspBandLookup, outcome := "informational" }] }

/- Helper lemmas. -/

/-- `qmul` is exactly rational multiplication. -/
theorem qmul_eq_mul (a b : ℚ) : qmul a b = a * b := by
  rw [qmul, Rat.mkRat_eq_div]
  push_cast
  rw [← div_mul_div_comm, Rat.num_div_den, Rat.num_div_den]

/-- A strictly increasing chain stays strictly increasing on its tail. -/
theorem chainLt_tail {a : ℚ} {l : List ℚ} (h : chainLt (a :: l) = true) :
    chainLt l = true := by
  cases l with
  | nil => rfl
  | cons b t =>
    simp only [chainLt, Bool.and_eq_true] at h
    exact h.2

/-- The head of a strictly increasing chain is below every later element. -/
theorem chainLt_head_lt {a : ℚ} {l : List ℚ} (h : chainLt (a :: l) = true) :
    ∀ x ∈ l, a < x := by
  induction l generalizing a with
  | nil => intro x hx; cases hx
  | cons b t ih =>
    have hab : a < b := by
      simp only [chainLt, Bool.and_eq_true, decide_eq_true_eq] at h
      exact h.1
    intro x hx
    rcases List.mem_cons.mp hx with rfl | hx2
    · exact hab
    · exact lt_trans hab (ih (chainLt_tail h) x hx2)

/-- A successful regulatory evaluation pins the resolved row and result. -/
theorem evalRegulatory_ok {st : Store} {s : Snapshot} {o : String}
    {r : ClassificationResult} (h : evalRegulatory st s o = Except.ok r) :
    ∃ rt, lookupRegionThreshold st s.region s.metric_kind = some rt ∧
      r = regulatoryResult st s o rt := by
  unfold evalRegulatory at h
  cases hrt : lookupRegionThreshold st s.region s.metric_kind with
  | none =>
    rw [hrt] at h
    simp at h
  | some rt =>
    rw [hrt] at h
    simp only [Except.ok.injEq] at h
    exact ⟨rt, rfl, h.symm⟩

/-- Every successful evaluation is either the exemption short-circuit result
or a regulatory result for a resolved row. -/
theorem evaluate_ok_cases {st : Store} {s : Snapshot} {r : ClassificationResult}
    (h : evaluate st s = Except.ok r) :
    (∃ e, exemptionFor st s = some e ∧ qualifies e s = true ∧
       r = exemptResult st s e ∧ shortCircuits st s = true) ∨
    (∃ rt o, lookupRegionThreshold st s.region s.metric_kind = some rt ∧
       r = regulatoryResult st s o rt ∧ shortCircuits st s = false) := by
  unfold evaluate at h
  cases hex : exemptionFor st s with
  | none =>
    rw [hex] at h
    have h3 : evalRegulatory st s "none" = Except.ok r := h
    obtain ⟨rt, hrt, hr⟩ := evalRegulatory_ok h3
    exact Or.inr ⟨rt, "none", hrt, hr, by simp [shortCircuits, hex]⟩
  | some e =>
    rw [hex] at h
    have h3 : (if qualifies e s = true then Except.ok (exemptResult st s e)
        else evalRegulatory st s "present_not_qualifying") = Except.ok r := h
    by_cases hq : qualifies e s = true
    · rw [if_pos hq] at h3
      simp only [Except.ok.injEq] at h3
      exact Or.inl ⟨e, rfl, hq, h3.symm, by simp [shortCircuits, hex, hq]⟩
    · have hq2 : qualifies e s = false := by
        cases hqq : qualifies e s
        · rfl
        · exact absurd hqq hq
      rw [if_neg hq] at h3
      obtain ⟨rt, hrt, hr⟩ := evalRegulatory_ok h3
      exact Or.inr ⟨rt, "present_not_qualifying", hrt, hr,
        by simp [shortCircuits, hex, hq2]⟩

/-- Every successful evaluation attaches the PSP band label computed by
`lookupPSPBand` on the snapshot ratio. -/
theorem evaluate_psp_risk_label {st : Store} {s : Snapshot}
    {r : ClassificationResult} (h : evaluate st s = Except.ok r) :
    r.psp_risk_label = (lookupPSPBand st.pspBands s.dispute_rate).map (fun b => b.label) := by
  rcases evaluate_ok_cases h with ⟨e, _, _, hr, _⟩ | ⟨rt, o, _, hr, _⟩ <;>
    subst hr <;> rfl

/-- A successful evaluation that did not apply an exemption is a regulatory
result for some resolved row. -/
theorem evaluate_not_exempt {st : Store} {s : Snapshot} {r : ClassificationResult}
    (h : evaluate st s = Except.ok r) (hne : r.exemption_applied = false) :
    ∃ rt o, lookupRegionThreshold st s.region s.metric_kind = some rt ∧
      r = regulatoryResult st s o rt := by
  rcases evaluate_ok_cases h with ⟨e, _, _, hr, _⟩ | ⟨rt, o, hrt, hr, _⟩
  · subst hr; simp [exemptResult] at hne
  · exact ⟨rt, o, hrt, hr⟩

/-- A ratio at or above the last band bound makes `escalates` fire. -/
theorem escalates_of_getLast {bands : List PSPShadowBand} {b : PSPShadowBand}
    {x : ℚ} (hl : bands.getLast? = some b) (hx : b.lower_bound ≤ x) :
    escalates bands x = true := by
  simp [escalates, hl, hx]

/-- Escalation forces the critical tier. -/
theorem classifyTier_critical_of_escalates {bands : List PSPShadowBand}
    {rt : RegionThreshold} {d : ℕ} {x : ℚ} (he : escalates bands x = true) :
    classifyTier bands rt d x = Tier.critical := by
  simp [classifyTier, he]

/-- A ratio at or above the applicable warning boundary never classifies
green (the boundary is an inclusive floor). -/
theorem classifyTier_ne_green {bands : List PSPShadowBand} {rt : RegionThreshold}
    {d : ℕ} {x : ℚ} (h : applicableWarn rt d ≤ x) :
    classifyTier bands rt d x ≠ Tier.green := by
  by_cases he : escalates bands x = true
  · simp [classifyTier, he]
  · have he2 : escalates bands x = false := by
      cases hq : escalates bands x
      · rfl
      · exact absurd hq he
    simp only [classifyTier, he2, Bool.false_eq_true, if_false]
    unfold regulatoryTier
    rw [if_neg (not_lt.mpr h)]
    by_cases h2 : x < rt.future_threshold
    · rw [if_pos h2]; decide
    · rw [if_neg h2]; decide

/-- A ratio at or above the next boundary classifies red or critical (the
boundary is an inclusive floor). -/
theorem classifyTier_red_or_critical {bands : List PSPShadowBand}
    {rt : RegionThreshold} {d : ℕ} {x : ℚ}
    (hcf : rt.current_threshold ≤ rt.future_threshold)
    (hx : rt.future_threshold ≤ x) :
    classifyTier bands rt d x = Tier.red ∨ classifyTier bands rt d x = Tier.critical := by
  by_cases he : escalates bands x = true
  · exact Or.inr (by simp [classifyTier, he])
  · have he2 : escalates bands x = false := by
      cases hq : escalates bands x
      · rfl
      · exact absurd hq he
    have hwarn : applicableWarn rt d ≤ x := by
      unfold applicableWarn
      split_ifs
      · exact hx
      · exact le_trans hcf hx
    left
    simp only [classifyTier, he2, Bool.false_eq_true, if_false]
    unfold regulatoryTier
    rw [if_neg (not_lt.mpr hwarn), if_neg (not_lt.mpr hx)]

/-- C2: over strictly increasing bands, `lookupPSPBand` returns the highest
band whose lower bound is at or below the observed ratio, and returns none
exactly when the ratio is below every band bound — equivalently, for a
non-empty list, below the lowest band bound. -/
theorem c2_lookupPSPBand_highest :
    ∀ (bands : List PSPShadowBand) (x : ℚ),
      chainLt (bands.map (fun b => b.lower_bound)) = true →
      ((lookupPSPBand bands x = none ↔ ∀ b ∈ bands, x < b.lower_bound) ∧
       (∀ b, lookupPSPBand bands x = some b →
          b ∈ bands ∧ b.lower_bound ≤ x ∧
          ∀ b2 ∈ bands, b2.lower_bound ≤ x → b2.lower_bound ≤ b.lower_bound) ∧
       (∀ b0, bands.head? = some b0 →
          (lookupPSPBand bands x = none ↔ x < b0.lower_bound))) := by
  intro bands x
  induction bands with
  | nil =>
    intro _
    refine ⟨by simp [lookupPSPBand], ?_, ?_⟩
    · intro b hb
      simp [lookupPSPBand] at hb
    · intro b0 hb0
      cases hb0
  | cons b rest ih =>
    intro hs
    have hmap : chainLt (b.lower_bound :: rest.map (fun b => b.lower_bound)) = true := by
      simpa using hs
    have htail : chainLt (rest.map (fun b => b.lower_bound)) = true := chainLt_tail hmap
    have hltb : ∀ b2 ∈ rest, b.lower_bound < b2.lower_bound := by
      intro b2 hb2
      exact chainLt_head_lt hmap _ (List.mem_map_of_mem _ hb2)
    obtain ⟨ih1, ih2, _⟩ := ih htail
    by_cases hq : b.lower_bound ≤ x
    · cases hrec : lookupPSPBand rest x with
      | some b2 =>
        have hdef : lookupPSPBand (b :: rest) x = some b2 := by
          simp [lookupPSPBand, hq, hrec]
        obtain ⟨hmem, hle, hmax⟩ := ih2 b2 hrec
        refine ⟨?_, ?_, ?_⟩
        · rw [hdef]
          exact iff_of_false (by simp)
            (by
              intro hall
              exact absurd hq (not_le.mpr (hall b (List.mem_cons_self b rest))))
        · intro b3 h3
          rw [hdef] at h3
          injection h3 with h3
          subst h3
          refine ⟨List.mem_cons_of_mem _ hmem, hle, ?_⟩
          intro b4 hb4 hle4
          rcases List.mem_cons.mp hb4 with rfl | hb4r
          · exact le_of_lt (hltb b2 hmem)
          · exact hmax b4 hb4r hle4
        · intro b0 h0
          injection h0 with h0
          subst h0
          rw [hdef]
          exact iff_of_false (by simp) (not_lt.mpr hq)
      | none =>
        have hdef : lookupPSPBand (b :: rest) x = some b := by
          simp [lookupPSPBand, hq, hrec]
        refine ⟨?_, ?_, ?_⟩
        · rw [hdef]
          exact iff_of_false (by simp)
            (by
              intro hall
              exact absurd hq (not_le.mpr (hall b (List.mem_cons_self b rest))))
        · intro b3 h3
          rw [hdef] at h3
          injection h3 with h3
          subst h3
          refine ⟨List.mem_cons_self b rest, hq, ?_⟩
          intro b4 hb4 hle4
          rcases List.mem_cons.mp hb4 with rfl | hb4r
          · exact le_refl _
          · exact absurd hle4 (not_le.mpr (ih1.mp hrec b4 hb4r))
        · intro b0 h0
          injection h0 with h0
          subst h0
          rw [hdef]
          exact iff_of_false (by simp) (not_lt.mpr hq)
    · have hxb : x < b.lower_bound := not_le.mp hq
      have hrest : lookupPSPBand rest x = none :=
        ih1.mpr (fun b2 hb2 => lt_trans hxb (hltb b2 hb2))
      have hdef : lookupPSPBand (b :: rest) x = none := by
        simp [lookupPSPBand, hq, hrest]
      refine ⟨?_, ?_, ?_⟩
      · rw [hdef]
        refine iff_of_true rfl ?_
        intro b2 hb2
        rcases List.mem_cons.mp hb2 with rfl | hb2r
        · exact hxb
        · exact lt_trans hxb (hltb b2 hb2r)
      · intro b3 h3
        rw [hdef] at h3
        cases h3
      · intro b0 h0
        injection h0 with h0
        subst h0
        rw [hdef]
        exact iff_of_true rfl hxb

/-- Witness for C2 at the source bands and ratio 0.0065: the lookup lands on
the 0.5 percent band, which is a member whose bound is at or below the
ratio. -/
theorem c2_lookupPSPBand_highest_witness :
    lookupPSPBand pspShadowBands (mkRat 65 10000) =
      some { lower_bound := mkRat 5 1000, label := "elevated monitoring" } ∧
    ({ lower_bound := mkRat 5 1000, label := "elevated monitoring" } : PSPShadowBand) ∈ pspShadowBands ∧
    (mkRat 5 1000 : ℚ) ≤ mkRat 65 10000 := by
  have h := (c2_lookupPSPBand_highest pspShadowBands (mkRat 65 10000) (by decide)).2.1
    { lower_bound := mkRat 5 1000, label := "elevated monitoring" } rfl
  exact ⟨rfl, h.1, h.2.1⟩

/-- C1 counterexample: in the concrete scenario (region US, metric VAMP,
dispute ratio exactly 0.0065, no exemption) the attached PSP band is the
0.5 percent band, not the 0.3 percent band the claim names — the highest
band bound at or below 0.0065 among the source bands 0.3, 0.5, 0.7, 0.9
percent is 0.5 percent. -/
theorem c1_band_counterexample :
    lookupPSPBand pspShadowBands c1Snap.dispute_rate =
      some { lower_bound := mkRat 5 1000, label := "elevated monitoring" } ∧
    evaluate demoStore c1Snap = Except.ok c1Expected ∧
    c1Expected.psp_risk_label = some "elevated monitoring" ∧
    ("elevated monitoring" : String) ≠ "reserves likely" ∧
    (mkRat 5 1000 : ℚ) ≠ mkRat 3 1000 := by
  exact ⟨rfl, rfl, rfl, by decide, by decide⟩

/-- C1 (amended): tier thresholds are inclusive floors — a dispute ratio
exactly at the applicable warning boundary classifies at least watch (never
green), at the next boundary red or critical, and at the top shadow band
bound critical; in the concrete US/VAMP scenario at ratio 0.0065 with no
exemption the tier is watch, with the 0.5 percent PSP band attached (not
the 0.3 percent band) and the penalty rendered in USD. -/
theorem c1_inclusive_floors :
    (∀ (st : Store) (s : Snapshot) (rt : RegionThreshold) (r : ClassificationResult),
        evaluate st s = Except.ok r →
        r.exemption_applied = false →
        lookupRegionThreshold st s.region s.metric_kind = some rt →
        ((applicableWarn rt s.as_of_date ≤ s.dispute_rate → r.tier ≠ Tier.green) ∧
         (rt.current_threshold ≤ rt.future_threshold →
            rt.future_threshold ≤ s.dispute_rate →
            r.tier = Tier.red ∨ r.tier = Tier.critical) ∧
         (∀ b, st.pspBands.getLast? = some b → b.lower_bound ≤ s.dispute_rate →
            r.tier = Tier.critical))) ∧
    evaluate demoStore c1Snap = Except.ok c1Expected := by
  refine ⟨?_, rfl⟩
  intro st s rt r hev hne hrt
  obtain ⟨rt2, o, hrt2, hr⟩ := evaluate_not_exempt hev hne
  rw [hrt] at hrt2
  injection hrt2 with hrt2
  subst hrt2
  subst hr
  refine ⟨?_, ?_, ?_⟩
  · intro hwarn
    exact classifyTier_ne_green hwarn
  · intro hcf hx
    exact classifyTier_red_or_critical hcf hx
  · intro b hl hx
    exact classifyTier_critical_of_escalates (escalates_of_getLast hl hx)

/-- Witness for the amended C1 at the concrete scenario: the ratio sits
exactly on the warning boundary, so the tier is not green (and it computes
to watch). -/
theorem c1_inclusive_floors_witness :
    c1Expected.tier ≠ Tier.green ∧ c1Expected.tier = Tier.watch := by
  have h := (c1_inclusive_floors.1 demoStore c1Snap usVampRow c1Expected
    rfl rfl rfl).1 (by decide)
  exact ⟨h, rfl⟩

/-- C3 counterexample: a snapshot with dispute ratio 0.009 whose country
holds an active domestic exemption with a domestic mix evaluates to tier
green, not critical — the exemption short-circuit beats the escalation. -/
theorem c3_exempt_counterexample :
    c3ExemptSnap.dispute_rate = mkRat 9 1000 ∧
    evaluate demoStore c3ExemptSnap = Except.ok c3ExemptExpected ∧
    c3ExemptExpected.tier = Tier.green ∧
    Tier.green ≠ Tier.critical := by
  exact ⟨rfl, rfl, rfl, by decide⟩

/-- C3 (amended): with the source shadow bands, every snapshot at dispute
ratio 0.009 that evaluates successfully carries the terminal band label
"termination likely", and whenever the exemption short-circuit did not
apply the tier escalates to critical (whatever the regulatory tier alone
would be). -/
theorem c3_terminal_band_critical :
    ∀ (st : Store) (s : Snapshot) (r : ClassificationResult),
      st.pspBands = pspShadowBands →
      s.dispute_rate = mkRat 9 1000 →
      evaluate st s = Except.ok r →
      r.psp_risk_label = some "termination likely" ∧
      (r.exemption_applied = false → r.tier = Tier.critical) := by
  intro st s r hbands hrate hev
  constructor
  · rw [evaluate_psp_risk_label hev, hbands, hrate]
    rfl
  · intro hne
    obtain ⟨rt, o, hrt, hr⟩ := evaluate_not_exempt hev hne
    subst hr
    show classifyTier st.pspBands rt s.as_of_date s.dispute_rate = Tier.critical
    rw [hbands, hrate]
    exact classifyTier_critical_of_escalates (by decide)

/-- Witness for the amended C3: region EU, no exemption, ratio 0.009 — the
terminal label is attached and the tier is critical. -/
theorem c3_terminal_band_critical_witness :
    c3WitnessExpected.psp_risk_label = some "termination likely" ∧
    c3WitnessExpected.tier = Tier.critical := by
  have h := c3_terminal_band_critical demoStore c3WitnessSnap c3WitnessExpected
    rfl rfl rfl
  exact ⟨h.1, h.2 rfl⟩

/-- C4: whenever the snapshot country has an active domestic-only exemption
and the transaction mix is domestic, evaluation succeeds with the green
(exempt) tier and `exemption_applied` set, whatever the dispute ratio and
even against a store with no region threshold rows at all (the
short-circuit precedes regime resolution), and the PSP band is still
computed for informational display. -/
theorem c4_exemption_short_circuit :
    ∀ (st : Store) (s : Snapshot),
      (∃ e ∈ st.exemptions, e.country_code = s.country_code ∧
         activeAt e s.as_of_date = true ∧ e.scope = ExemptionScope.domesticOnly) →
      s.is_domestic_mix = true →
      (evaluate st s).isOk = true ∧
      ∀ r, evaluate st s = Except.ok r →
        r.tier = Tier.green ∧ r.exemption_applied = true ∧
        r.psp_risk_label = (lookupPSPBand st.pspBands s.dispute_rate).map (fun b => b.label) := by
  intro st s hex hdom
  obtain ⟨e, hmem, hcc, hact, _⟩ := hex
  have hsome : (st.exemptions.find?
      (fun e2 => decide (e2.country_code = s.country_code) && activeAt e2 s.as_of_date)).isSome = true := by
    rw [List.find?_isSome]
    exact ⟨e, hmem, by simp [hcc, hact]⟩
  obtain ⟨e2, hfind⟩ := Option.isSome_iff_exists.mp hsome
  have hef : exemptionFor st s = some e2 := hfind
  have hq : qualifies e2 s = true := by
    unfold qualifies
    cases hsc : e2.scope
    · rw [hdom]
    · rfl
  have hev : evaluate st s = Except.ok (exemptResult st s e2) := by
    unfold evaluate
    rw [hef]
    have : (if qualifies e2 s = true then Except.ok (exemptResult st s e2)
        else evalRegulatory st s "present_not_qualifying") =
        Except.ok (exemptResult st s e2) := if_pos hq
    exact this
  refine ⟨by rw [hev]; rfl, ?_⟩
  intro r hr
  rw [hev] at hr
  injection hr with hr
  subst hr
  exact ⟨rfl, rfl, rfl⟩

/-- Witness for C4: Chile, domestic mix, dispute ratio 0.05 (far above every
threshold) — the result is green with the exemption applied and the band
still attached. -/
theorem c4_exemption_short_circuit_witness :
    c4Expected.tier = Tier.green ∧ c4Expected.exemption_applied = true ∧
    c4Expected.psp_risk_label =
      (lookupPSPBand demoStore.pspBands c4Snap.dispute_rate).map (fun b => b.label) := by
  have h := (c4_exemption_short_circuit demoStore c4Snap
    ⟨{ country_code := "CL", scope := ExemptionScope.domesticOnly,
       valid_from := 0, valid_until := none },
     by decide, by decide, by decide, rfl⟩ rfl).2 c4Expected rfl
  exact h

/-- C5 counterexample: a snapshot whose (region, metric) pair has no
threshold row but whose country is exempt with a domestic mix evaluates
successfully (the short-circuit precedes regime resolution), so evaluate
does not fail with `UnknownRegionError` for every such snapshot. -/
theorem c5_exempt_counterexample :
    lookupRegionThreshold c5Store c5ExemptSnap.region c5ExemptSnap.metric_kind = none ∧
    (evaluate c5Store c5ExemptSnap).isOk = true := by
  exact ⟨rfl, rfl⟩

/-- C5 (amended): whenever no threshold row matches the snapshot region and
metric and the exemption short-circuit does not apply, evaluation fails
with `UnknownRegionError` as a reported result — never a silently
substituted default threshold (the evaluator is a total function into a
result type, so no exceptional control flow crosses the boundary). -/
theorem c5_unknown_region_error :
    ∀ (st : Store) (s : Snapshot),
      lookupRegionThreshold st s.region s.metric_kind = none →
      shortCircuits st s = false →
      evaluate st s = Except.error EvalError.unknownRegion := by
  intro st s hrt hsc
  unfold evaluate
  cases hex : exemptionFor st s with
  | none =>
    show evalRegulatory st s "none" = Except.error EvalError.unknownRegion
    unfold evalRegulatory
    rw [hrt]
  | some e =>
    have hq : qualifies e s = false := by
      unfold shortCircuits at hsc
      rw [hex] at hsc
      exact hsc
    show (if qualifies e s = true then Except.ok (exemptResult st s e)
        else evalRegulatory st s "present_not_qualifying") =
      Except.error EvalError.unknownRegion
    rw [hq]
    show evalRegulatory st s "present_not_qualifying" = Except.error EvalError.unknownRegion
    unfold evalRegulatory
    rw [hrt]

/-- Witness for the amended C5: the demo store has no PIX MED row, and a US
snapshot with no exemption on that metric reports `UnknownRegionError`. -/
theorem c5_unknown_region_error_witness :
    evaluate demoStore c5WitnessSnap = Except.error EvalError.unknownRegion := by
  exact c5_unknown_region_error demoStore c5WitnessSnap rfl rfl

/-- C6: when the snapshot currency is absent from the rate table, `convert`
fails with `CurrencyError` for every amount (no default rate), while
`evaluate` still succeeds wherever it otherwise would: the penalty estimate
degrades to unavailable, an exempt result keeps tier green, a regulatory
result keeps the tier classified from the thresholds and bands alone, and
the only reportable evaluation error remains `UnknownRegionError`. -/
theorem c6_currency_error_degrades :
    ∀ (st : Store) (s : Snapshot),
      (∀ cr ∈ st.rates, cr.currency_code ≠ s.currency_code) →
      (∀ amountUsd : ℚ,
         convert st.rates amountUsd s.currency_code = Except.error CurrencyError.missingRate) ∧
      (∀ r, evaluate st s = Except.ok r →
         r.penalty_estimate = none ∧
         (r.exemption_applied = true → r.tier = Tier.green) ∧
         (r.exemption_applied = false →
            ∃ rt, lookupRegionThreshold st s.region s.metric_kind = some rt ∧
              r.tier = classifyTier st.pspBands rt s.as_of_date s.dispute_rate)) ∧
      (∀ err, evaluate st s = Except.error err → err = EvalError.unknownRegion) := by
  intro st s hno
  have hfind : st.rates.find? (fun cr => decide (cr.currency_code = s.currency_code)) = none := by
    rw [List.find?_eq_none]
    intro cr hcr
    simp [hno cr hcr]
  have hconv : ∀ a : ℚ,
      convert st.rates a s.currency_code = Except.error CurrencyError.missingRate := by
    intro a
    unfold convert
    rw [hfind]
  have hpen : penaltyFor st s.currency_code = none := by
    unfold penaltyFor
    cases hlf : lowestFine st.fine_bands_usd with
    | none => rfl
    | some base =>
      show (match convert st.rates base s.currency_code with
            | Except.ok amt => some ({ amount := amt, currency_code := s.currency_code } : PenaltyEstimate)
            | Except.error _ => none) = none
      rw [hconv base]
  refine ⟨hconv, ?_, ?_⟩
  · intro r hr
    rcases evaluate_ok_cases hr with ⟨e, _, _, hrr, _⟩ | ⟨rt, o, hrt, hrr, _⟩
    · subst hrr
      exact ⟨rfl, fun _ => rfl, fun hf => Bool.noConfusion hf⟩
    · subst hrr
      refine ⟨hpen, fun ht => Bool.noConfusion ht, fun _ => ⟨rt, hrt, rfl⟩⟩
  · intro err herr
    cases err
    rfl

/-- Witness for C6: the demo store has no JPY rate; conversion fails and
the snapshot still classifies (green) with the penalty unavailable. -/
theorem c6_currency_error_degrades_witness :
    convert demoStore.rates (mkRat 5000 1) c6Snap.currency_code =
      Except.error CurrencyError.missingRate ∧
    c6Expected.penalty_estimate = none ∧ c6Expected.tier = Tier.green := by
  have h := c6_currency_error_degrades demoStore c6Snap (by decide)
  exact ⟨h.1 (mkRat 5000 1), (h.2.1 c6Expected rfl).1, rfl⟩

/-- C7: `load` rejects with `ConfigError` every table set containing a
region row with `future_threshold` at or below `current_threshold`, PSP
band bounds not strictly increasing, a non-positive currency rate, or an
exemption whose `valid_until` precedes `valid_from`; and on a failing
reload the previously published store stays active unchanged. -/
theorem c7_load_validates :
    ∀ (t : Tables) (published : Store),
      ((∃ rt ∈ t.regionThresholds, rt.future_threshold ≤ rt.current_threshold) ∨
       chainLt (t.pspBands.map (fun b => b.lower_bound)) = false ∨
       (∃ cr ∈ t.rates, cr.rate_to_usd ≤ 0) ∨
       (∃ e ∈ t.exemptions, ∃ u, e.valid_until = some u ∧ u < e.valid_from)) →
      load t = Except.error ConfigError.invalidTables ∧
      reloadConfiguration published t = (published, Except.error ConfigError.invalidTables) := by
  intro t published hbad
  have hv : validTables t = false := by
    cases hvt : validTables t
    · rfl
    · exfalso
      have hparts := hvt
      unfold validTables at hparts
      simp only [Bool.and_eq_true] at hparts
      obtain ⟨⟨⟨hA, hB⟩, hC⟩, hD⟩ := hparts
      rcases hbad with ⟨rt, hmem, hle⟩ | hb | ⟨cr, hmem, hle⟩ | ⟨e, hmem, u, hu, hlt⟩
      · have h1 := List.all_eq_true.mp hA rt hmem
        simp only [decide_eq_true_eq] at h1
        exact absurd hle (not_le.mpr h1)
      · rw [hb] at hB
        exact Bool.noConfusion hB
      · have h1 := List.all_eq_true.mp hC cr hmem
        simp only [decide_eq_true_eq] at h1
        exact absurd hle (not_le.mpr h1)
      · have h1 := List.all_eq_true.mp hD e hmem
        rw [hu] at h1
        simp only [decide_eq_true_eq] at h1
        exact absurd hlt (not_lt.mpr h1)
  constructor
  · unfold load
    rw [hv]
    rfl
  · unfold reloadConfiguration load
    rw [hv]
    rfl

/-- Witness for C7: a table set whose only region row has
`future_threshold` 0.0065 at or below `current_threshold` 0.01 is rejected
by `load`, and reloading it over the demo store keeps the demo store
active. -/
theorem c7_load_validates_witness :
    load badTables = Except.error ConfigError.invalidTables ∧
    reloadConfiguration demoStore badTables =
      (demoStore, Except.error ConfigError.invalidTables) := by
  exact c7_load_validates badTables demoStore
    (Or.inl ⟨{ region := Region.US, metric := Metric.VAMP,
               current_threshold := mkRat 1 100, future_threshold := mkRat 65 10000,
               effective_date := 0 }, by decide, by decide⟩)

/-- C8: evaluation is deterministic — two calls on equal snapshots against
the same store give identical results, in particular audit trails of equal
length and rule-kind sequence — and every successful result records exactly
one audit entry per executed pipeline stage, in evaluation order. -/
theorem c8_deterministic_audit :
    ∀ (st : Store) (s1 s2 : Snapshot), s1 = s2 →
      evaluate st s1 = evaluate st s2 ∧
      (∀ r1 r2, evaluate st s1 = Except.ok r1 → evaluate st s2 = Except.ok r2 →
         r1.audit_trail.length = r2.audit_trail.length ∧
         r1.audit_trail.map (fun a => a.rule_kind) = r2.audit_trail.map (fun a => a.rule_kind)) ∧
      (∀ r, evaluate st s1 = Except.ok r →
         r.audit_trail.map (fun a => a.rule_kind) = executedStages st s1 ∧
         (executedStages st s1).Nodup) := by
  intro st s1 s2 hs
  subst hs
  refine ⟨rfl, ?_, ?_⟩
  · intro r1 r2 h1 h2
    rw [h1] at h2
    injection h2 with h2
    subst h2
    exact ⟨rfl, rfl⟩
  · intro r hr
    rcases evaluate_ok_cases hr with ⟨e, _, _, hrr, hsc⟩ | ⟨rt, o, _, hrr, hsc⟩
    · subst hrr
      unfold executedStages
      rw [hsc]
      exact ⟨rfl, by decide⟩
    · subst hrr
      unfold executedStages
      rw [hsc]
      exact ⟨rfl, by decide⟩

/-- Witness for C8 on the exempt Brazil snapshot: the audit trail lists
exactly the two executed stages, each once. -/
theorem c8_deterministic_audit_witness :
    c8Expected.audit_trail.map (fun a => a.rule_kind) = executedStages demoStore c8Snap ∧
    (executedStages demoStore c8Snap).Nodup := by
  exact (c8_deterministic_audit demoStore c8Snap c8Snap rfl).2.2 c8Expected rfl

/-- One payload part updates the map exactly as its `entrySpec` entry
dictates: overwrite at the trimmed key when the part contributes an entry,
leave the map unchanged otherwise. -/
theorem applyPart_apply (out : JsStr → Option JsStr) (part q : JsStr) :
    applyPart out part q =
      (match entrySpec part with
       | some e => if q = e.1 then some e.2 else out q
       | none => out q) := by
  unfold applyPart entrySpec
  cases h : jsSplit ':' part with
  | nil => rfl
  | cons key rest =>
    cases rest with
    | nil => rfl
    | cons value rest2 =>
      by_cases hkv : key ≠ [] ∧ value ≠ []
      · simp [hkv]
      · simp [hkv]

/-- Folding the parts over an accumulator looks up the latest contributed
entry, falling back to the accumulator. -/
theorem foldl_applyPart (parts : List JsStr) (acc : JsStr → Option JsStr) (q : JsStr) :
    (parts.foldl applyPart acc) q =
      (((parts.filterMap entrySpec).reverse.find? (fun e => decide (e.1 = q))).map
        (fun e => e.2)).or (acc q) := by
  induction parts generalizing acc with
  | nil => simp
  | cons p ps ih =>
    rw [List.foldl_cons, ih (applyPart acc p), applyPart_apply]
    cases hp : entrySpec p with
    | none =>
      simp only [List.filterMap_cons, hp]
    | some e =>
      simp only [List.filterMap_cons, hp, List.reverse_cons, List.find?_append]
      cases hf : (ps.filterMap entrySpec).reverse.find? (fun e2 => decide (e2.1 = q)) with
      | some e2 => simp
      | none =>
        by_cases hq : q = e.1
        · simp [hq]
        · simp [hq, Ne.symm hq, List.find?]

/-- C9: `parsePayload` is total and shape-preserving — falsy input
(undefined, null, the empty string) yields the empty map, and on any other
input the value at each key is the value of the last `;`-part contributing
an entry for that key, where a part contributes exactly when splitting it
on `:` gives a non-empty first and second piece (both stored trimmed,
pieces after the second discarded), later parts overwriting earlier
ones. -/
theorem c9_parsePayload_characterization :
    (∀ q, parsePayload none q = none) ∧
    (∀ q, parsePayload (some []) q = none) ∧
    (∀ (s q : JsStr),
       parsePayload (some s) q =
         (((jsSplit ';' s).filterMap entrySpec).reverse.find?
             (fun e => decide (e.1 = q))).map (fun e => e.2)) := by
  refine ⟨fun q => rfl, fun q => rfl, ?_⟩
  intro s q
  by_cases hs : s = []
  · subst hs
    rfl
  · show (if s = [] then (fun _ => (none : Option JsStr))
        else (jsSplit ';' s).foldl applyPart (fun _ => none)) q = _
    rw [if_neg hs, foldl_applyPart]
    cases ((jsSplit ';' s).filterMap entrySpec).reverse.find? (fun e => decide (e.1 = q)) with
    | none => rfl
    | some e => rfl

/-- C10: the exported webhook handler sends exactly one response on every
request and never propagates an exception: POST with a successful update
gets 200 with the ok body, a non-POST method gets 200 with the readiness
body, and a throwing update handler gets 500 with the error body. -/
theorem c10_webhook_single_response :
    ∀ (method : String) (u : UpdateOutcome),
      (webhookHandler method u).2 = none ∧
      (webhookHandler method u).1.length = 1 ∧
      (method = "POST" → u = UpdateOutcome.handled →
        (webhookHandler method u).1 = [{ status := 200, body := HttpBody.okTrue }]) ∧
      (method ≠ "POST" →
        (webhookHandler method u).1 = [{ status := 200, body := HttpBody.readiness }]) ∧
      (method = "POST" → u = UpdateOutcome.threw →
        (webhookHandler method u).1 = [{ status := 500, body := HttpBody.errorBody }]) := by
  intro method u
  by_cases hm : method = "POST"
  · cases u
    · refine ⟨?_, ?_, ?_, ?_, ?_⟩ <;>
        simp [webhookHandler, webhookTry, hm]
    · refine ⟨?_, ?_, ?_, ?_, ?_⟩ <;>
        simp [webhookHandler, webhookTry, hm]
  · refine ⟨?_, ?_, ?_, ?_, ?_⟩ <;>
      simp [webhookHandler, webhookTry, hm]

/-- Witness for C10 on concrete requests: a handled POST, a GET, and a
throwing POST each get their single documented response. -/
theorem c10_webhook_single_response_witness :
    (webhookHandler "POST" UpdateOutcome.handled).1 =
      [{ status := 200, body := HttpBody.okTrue }] ∧
    (webhookHandler "GET" UpdateOutcome.handled).1 =
      [{ status := 200, body := HttpBody.readiness }] ∧
    (webhookHandler "POST" UpdateOutcome.threw).1 =
      [{ status := 500, body := HttpBody.errorBody }] ∧
    (webhookHandler "POST" UpdateOutcome.threw).2 = none := by
  refine ⟨(c10_webhook_single_response "POST" UpdateOutcome.handled).2.2.1 rfl rfl,
    (c10_webhook_single_response "GET" UpdateOutcome.handled).2.2.2.1 (by decide),
    (c10_webhook_single_response "POST" UpdateOutcome.threw).2.2.2.2 rfl rfl,
    (c10_webhook_single_response "POST" UpdateOutcome.threw).1⟩

end CrisisBot
